import Mathlib

/-!
Formal model of the Flask text-analysis service in `src/app.py`.

The service exposes `GET /health` and `POST /analyze`.  The analyze handler
(lines 16-66 of `src/app.py`) validates the request content type, parses the
JSON body, checks for a string field `text`, and returns word and character
counts; any exception raised inside the handler is caught by its
`except Exception` clause and mapped to a 500 response.

Modelling choices (all explained at the relevant definition):
- Python strings are sequences of Unicode code points; we model them as
  `List Char`, whose length matches Python's `len`.
- A parsed JSON document is the inductive `Json`; the result of Flask's
  `request.get_json()` is an `Option Json` (`none` = the body failed to
  parse, in which case Flask raises an exception inside the handler).
- Python dynamic operations that can raise (`in` on a non-container,
  `data['text']` on a non-dict) return `Except Unit _`, the error standing
  for the raised `TypeError`/`KeyError`.
- The process-wide logger is modelled as an explicit log state threaded
  through `analyzeStep`, so statelessness of the response is a theorem
  rather than an artifact of the embedding.
-/

namespace App

/-- A parsed JSON value, as produced by Python's `json` module: objects become
dicts with string keys (later duplicate keys overwrite earlier ones), strings
become `str`, numbers `num`, plus booleans, `null`, and arrays. -/
inductive Json where
  | null
  | bool (b : Bool)
  | num (n : Int)
  | str (s : List Char)
  | arr (elems : List Json)
  | obj (fields : List (List Char × Json))

/-- Whether a Json value is a (Python) string: `isinstance(text, str)` in
line 47 of `src/app.py`. -/
def Json.isStr : Json → Bool
  | Json.str _ => true
  | _ => false

/-- Python's whitespace test for `str.split()` / `str.strip()`: true on the
ASCII whitespace and control separators and the Unicode space characters
(code points 9-13, 28-31, 32, 0x85, 0xA0, 0x1680, 0x2000-0x200A, 0x2028,
0x2029, 0x202F, 0x205F, 0x3000). -/
def isPySpace (c : Char) : Bool :=
  let n := c.toNat
  decide ((9 ≤ n ∧ n ≤ 13) ∨ (28 ≤ n ∧ n ≤ 31) ∨ n = 32 ∨ n = 0x85 ∨
    n = 0xA0 ∨ n = 0x1680 ∨ (0x2000 ≤ n ∧ n ≤ 0x200A) ∨ n = 0x2028 ∨
    n = 0x2029 ∨ n = 0x202F ∨ n = 0x205F ∨ n = 0x3000)

/-- Python `text.strip()` (line 51 of `src/app.py`): remove leading and
trailing whitespace. -/
def stripPy (s : List Char) : List Char :=
  ((s.dropWhile isPySpace).reverse.dropWhile isPySpace).reverse

/-- Accumulator worker for `pySplit`: `cur` holds the current (reversed)
run of non-whitespace characters. -/
def splitAux : List Char → List Char → List (List Char)
  | cur, [] => if cur.isEmpty then [] else [cur.reverse]
  | cur, c :: cs =>
    if isPySpace c then
      if cur.isEmpty then splitAux [] cs else cur.reverse :: splitAux [] cs
    else
      splitAux (c :: cur) cs

/-- Python `text.split()` with no separator (line 51 of `src/app.py`): split
on runs of whitespace and discard empty results. -/
def pySplit (s : List Char) : List (List Char) :=
  splitAux [] s

/-- Line 51 of `src/app.py`:
`word_count = len(text.split()) if text.strip() else 0`
(a Python conditional expression: the split length if the stripped string is
non-empty, else 0). -/
def wordCount (s : List Char) : Nat :=
  if (stripPy s).isEmpty then 0 else (pySplit s).length

/-- Modelled from the spec (§3 and Glossary): the number of
whitespace-delimited non-empty tokens of `s`, counted as the number of
maximal runs of non-whitespace characters, i.e. the number of positions
holding a non-whitespace character whose predecessor (if any) is
whitespace.  The boolean argument records whether we are at such a
boundary (`true` at the start of the string and after a whitespace
character). -/
def countStarts : Bool → List Char → Nat
  | _, [] => 0
  | atBoundary, c :: cs =>
    if isPySpace c then countStarts true cs
    else (if atBoundary then 1 else 0) + countStarts false cs

/-- The UTF-8 byte length of a string, used only to witness that the
character count is a code-point count and not a byte count. -/
def utf8Len (s : List Char) : Nat :=
  (s.map Char.utf8Size).sum

/-- Lookup in a Python dict built by inserting the pairs of `fields` in
order: a later binding of the same key overwrites an earlier one, so the
last matching pair wins. -/
def lookupLast (fields : List (List Char × Json)) (k : List Char) : Option Json :=
  match fields with
  | [] => none
  | (k', v) :: rest =>
    match lookupLast rest k with
    | some v' => some v'
    | none => if k' = k then some v else none

/-- Python substring containment `t in s` for strings: `t` occurs as a
contiguous run inside `s`. -/
def containsSub (s t : List Char) : Bool :=
  match s with
  | [] => t.isEmpty
  | c :: rest => t.isPrefixOf (c :: rest) || containsSub rest t

/-- Python `'text' in data` for a parsed JSON value `data` (line 41 of
`src/app.py` is `if 'text' not in data`): key membership for a dict,
substring containment for a string, element equality for a list, and a
raised `TypeError` (the `Except.error`) for `None`, booleans and numbers,
which are not containers. -/
def pyContains : Json → List Char → Except Unit Bool
  | Json.obj fields, k => Except.ok (lookupLast fields k).isSome
  | Json.str s, k => Except.ok (containsSub s k)
  | Json.arr elems, k =>
    Except.ok (elems.any (fun x =>
      match x with
      | Json.str s => s == k
      | _ => false))
  | _, _ => Except.error ()

/-- Python `data['text']` (line 44 of `src/app.py`): dict lookup (raising
`KeyError` when the key is absent), and a raised `TypeError` for every
non-dict value, since strings and lists reject string indices and the
scalars are not subscriptable. -/
def pyGetItem : Json → List Char → Except Unit Json
  | Json.obj fields, k =>
    match lookupLast fields k with
    | some v => Except.ok v
    | none => Except.error ()
  | _, _ => Except.error ()

/-- The JSON object key `"text"`. -/
def textKey : List Char := ("text").data

/-- The JSON object key `"error"`. -/
def errorKey : List Char := ("error").data

/-- The JSON object key `"original_text"`. -/
def origKey : List Char := ("original_text").data

/-- The JSON object key `"word_count"`. -/
def wcKey : List Char := ("word_count").data

/-- The JSON object key `"character_count"`. -/
def ccKey : List Char := ("character_count").data

/-- An error response body `{"error": msg}`, as built by each
`jsonify({"error": ...})` call in `src/app.py`. -/
def errObj (msg : List Char) : Json :=
  Json.obj [(errorKey, Json.str msg)]

/-- Message of line 36 of `src/app.py`. -/
def ctErrMsg : List Char := ("Content-Type must be application/json").data

/-- Message of line 42 of `src/app.py`. -/
def missingMsg : List Char := ("Missing required field: text").data

/-- Message of line 48 of `src/app.py`. -/
def typeMsg : List Char := ("Field 'text' must be a string").data

/-- Message of line 66 of `src/app.py`. -/
def internalMsg : List Char := ("Internal server error").data

/-- Message of line 70 of `src/app.py`. -/
def notFoundMsg : List Char := ("Endpoint not found").data

/-- Message of line 74 of `src/app.py`. -/
def mnaMsg : List Char := ("Method not allowed").data

/-- The body returned by `health_check` (line 14 of `src/app.py`). -/
def healthyObj : Json :=
  Json.obj [(("status").data, Json.str (("healthy").data))]

/-- One record emitted through the process-wide logger: `logger.info` with
the two counts on success (line 60 of `src/app.py`), or `logger.error` in
the exception handler (line 65). -/
inductive LogEntry where
  | info (wc cc : Nat)
  | err

/-- The `analyze_text` handler (lines 16-66 of `src/app.py`), with the
logger state made explicit.  Input: whether the declared content type is
JSON (`request.is_json`), the result of parsing the body (`none` when the
body is not valid JSON, in which case Flask's `request.get_json()` raises
an exception that the handler's `except Exception` clause catches and maps
to a 500), and the current log.  Output: the `(status, body)` response and
the new log. -/
def analyzeStep (isJson : Bool) (body : Option Json) (log : List LogEntry) :
    (Nat × Json) × List LogEntry :=
  if !isJson then ((400, errObj ctErrMsg), log)
  else
    match body with
    | none => ((500, errObj internalMsg), log ++ [LogEntry.err])
    | some data =>
      match pyContains data textKey with
      | Except.error _ => ((500, errObj internalMsg), log ++ [LogEntry.err])
      | Except.ok hasText =>
        if !hasText then ((400, errObj missingMsg), log)
        else
          match pyGetItem data textKey with
          | Except.error _ => ((500, errObj internalMsg), log ++ [LogEntry.err])
          | Except.ok t =>
            match t with
            | Json.str s =>
              ((200, Json.obj [(origKey, Json.str s),
                 (wcKey, Json.num (Int.ofNat (wordCount s))),
                 (ccKey, Json.num (Int.ofNat s.length))]),
               log ++ [LogEntry.info (wordCount s) s.length])
            | _ => ((400, errObj typeMsg), log)

/-- The response of the `analyze_text` handler, ignoring the log. -/
def analyzeHandler (isJson : Bool) (body : Option Json) : Nat × Json :=
  (analyzeStep isJson body []).1

/-- Flask serves `HEAD` on a `GET` route and `OPTIONS` on every route
automatically; no claim depends on those responses, so they are modelled
by this placeholder. -/
def flaskAuto : Nat × Json :=
  (200, Json.null)

/-- The routing table of `src/app.py`: `/health` accepts `GET` (plus
Flask's automatic `HEAD` and `OPTIONS`), `/analyze` accepts `POST` (plus
automatic `OPTIONS`); a matched path with another method yields the 405
handler of lines 72-74, and any other path yields the 404 handler of
lines 68-70. -/
def dispatch (method path : String) (isJson : Bool) (body : Option Json) :
    Nat × Json :=
  if path = ("/health") then
    if method = ("GET") then (200, healthyObj)
    else if method = ("HEAD") ∨ method = ("OPTIONS") then flaskAuto
    else (405, errObj mnaMsg)
  else if path = ("/analyze") then
    if method = ("POST") then analyzeHandler isJson body
    else if method = ("OPTIONS") then flaskAuto
    else (405, errObj mnaMsg)
  else (404, errObj notFoundMsg)

/-- Extract the value of key `k` from a JSON object response body. -/
def jGet : Json → List Char → Option Json
  | Json.obj fields, k => lookupLast fields k
  | _, _ => none

/-- Extract the integer under an optional JSON number, defaulting to 0;
used to compare number fields of two response bodies. -/
def numOf : Option Json → Int
  | some (Json.num n) => n
  | _ => 0

/-- The text of the example request of spec §8. -/
def c1Text : List Char := ("I love cloud engineering!").data

theorem countStarts_le (s : List Char) : ∀ b, countStarts b s ≤ s.length := by
  induction s with
  | nil => intro b; simp [countStarts]
  | cons c cs ih =>
    intro b
    have h1 := ih true
    have h2 := ih false
    by_cases h : isPySpace c = true <;> cases b <;>
      simp [countStarts, h, List.length_cons] <;> omega

theorem countStarts_all_space (s : List Char) (h : ∀ x ∈ s, isPySpace x = true) :
    ∀ b, countStarts b s = 0 := by
  induction s with
  | nil => intro b; simp [countStarts]
  | cons c cs ih =>
    intro b
    have hc : isPySpace c = true := h c (List.mem_cons_self c cs)
    have hcs : ∀ x ∈ cs, isPySpace x = true :=
      fun x hx => h x (List.mem_cons_of_mem c hx)
    simp [countStarts, hc]
    exact ih hcs true

theorem splitAux_length (s : List Char) : ∀ cur : List Char,
    (splitAux cur s).length
      = (if cur.isEmpty then 0 else 1) + countStarts cur.isEmpty s := by
  induction s with
  | nil => intro cur; by_cases h : cur.isEmpty = true <;> simp [splitAux, countStarts, h]
  | cons c cs ih =>
    intro cur
    by_cases hc : isPySpace c = true
    · by_cases hcur : cur.isEmpty = true
      · simp [splitAux, countStarts, hc, hcur, ih []]
      · simp [splitAux, countStarts, hc, hcur, ih []]
        omega
    · have h1 := ih (c :: cur)
      simp at h1
      by_cases hcur : cur.isEmpty = true
      · simp [splitAux, countStarts, hc, hcur, h1]
      · simp [splitAux, countStarts, hc, hcur, h1]

theorem dropWhile_space_all (s : List Char) (h : s.dropWhile isPySpace = []) :
    ∀ x ∈ s, isPySpace x = true := by
  rw [List.dropWhile_eq_nil_iff] at h
  exact h

theorem all_of_dropWhile_all (s : List Char)
    (h : ∀ x ∈ s.dropWhile isPySpace, isPySpace x = true) :
    ∀ x ∈ s, isPySpace x = true := by
  induction s with
  | nil => simp
  | cons c cs ih =>
    by_cases hc : isPySpace c = true
    · simp [List.dropWhile_cons, hc] at h
      intro x hx
      rcases List.mem_cons.mp hx with h1 | h2
      · rw [h1]; exact hc
      · exact ih h x h2
    · simp only [List.dropWhile_cons, hc] at h
      simpa using h

theorem stripPy_nil_all (s : List Char) (h : stripPy s = []) :
    ∀ x ∈ s, isPySpace x = true := by
  unfold stripPy at h
  rw [List.reverse_eq_nil_iff] at h
  have h2 := dropWhile_space_all _ h
  apply all_of_dropWhile_all
  intro x hx
  exact h2 x (List.mem_reverse.mpr hx)

theorem wordCount_eq_countStarts (s : List Char) :
    wordCount s = countStarts true s := by
  by_cases h : (stripPy s).isEmpty = true
  · have hall := stripPy_nil_all s (by simpa [List.isEmpty_iff] using h)
    have h0 := countStarts_all_space s hall true
    simp [wordCount, h, h0]
  · have h2 := splitAux_length s []
    simp at h2
    simp [wordCount, h, pySplit, h2]

/-- C1 (amended): a POST `/analyze` request with JSON content type and body
`{"text": "I love cloud engineering!"}` is answered with HTTP 200 and body
`{"original_text": "I love cloud engineering!", "word_count": 4,
"character_count": 25}` — the example string has 25 characters, not 26. -/
theorem analyze_example_request :
    analyzeHandler true (some (Json.obj [(textKey, Json.str c1Text)]))
      = (200, Json.obj [(origKey, Json.str c1Text), (wcKey, Json.num 4),
          (ccKey, Json.num 25)]) := rfl

/-- C1 counterexample: on the request of the claim the handler returns
`character_count` 25, so the response body claimed by the spec (with
`character_count` 26) is not the one returned. -/
theorem analyze_example_request_cex :
    analyzeHandler true (some (Json.obj [(textKey, Json.str c1Text)]))
      = (200, Json.obj [(origKey, Json.str c1Text), (wcKey, Json.num 4),
          (ccKey, Json.num 25)]) ∧
    analyzeHandler true (some (Json.obj [(textKey, Json.str c1Text)]))
      ≠ (200, Json.obj [(origKey, Json.str c1Text), (wcKey, Json.num 4),
          (ccKey, Json.num 26)]) := by
  have hv : analyzeHandler true (some (Json.obj [(textKey, Json.str c1Text)]))
      = (200, Json.obj [(origKey, Json.str c1Text), (wcKey, Json.num 4),
          (ccKey, Json.num 25)]) := rfl
  refine ⟨hv, fun h => ?_⟩
  have h2 := hv.symm.trans h
  have h3 : (25 : Int) = 26 :=
    congrArg (fun r : Nat × Json => numOf (jGet r.2 ccKey)) h2
  exact absurd h3 (by decide)

/-- C2: for every string `s` accepted by the analyze operation, the returned
`word_count` is the number of whitespace-delimited non-empty tokens of `s`
(the number of maximal non-whitespace runs), and it is 0 when `s` is empty
or consists only of whitespace. -/
theorem analyze_word_count_spec (s : List Char) :
    jGet ((analyzeHandler true (some (Json.obj [(textKey, Json.str s)]))).2) wcKey
        = some (Json.num (Int.ofNat (countStarts true s))) ∧
    ((∀ x ∈ s, isPySpace x = true) →
      jGet ((analyzeHandler true (some (Json.obj [(textKey, Json.str s)]))).2) wcKey
        = some (Json.num 0)) := by
  have hbase : jGet ((analyzeHandler true
        (some (Json.obj [(textKey, Json.str s)]))).2) wcKey
      = some (Json.num (Int.ofNat (wordCount s))) := rfl
  constructor
  · rw [hbase, wordCount_eq_countStarts]
  · intro hall
    rw [hbase, wordCount_eq_countStarts, countStarts_all_space s hall true]
    rfl

/-- C2 witness: on the all-whitespace input of two spaces the returned
`word_count` is 0. -/
theorem analyze_word_count_spec_witness :
    jGet ((analyzeHandler true
        (some (Json.obj [(textKey, Json.str (("  ").data))]))).2) wcKey
      = some (Json.num 0) :=
  (analyze_word_count_spec (("  ").data)).2 (by decide)

/-- C3: for every string `s` accepted by the analyze operation, the returned
`character_count` is the native length of `s` — its number of code points
(`List.length` of the character list, matching Python `len`), which differs
from the byte count, as witnessed by a two-byte one-character string. -/
theorem analyze_character_count_native (s : List Char) :
    jGet ((analyzeHandler true (some (Json.obj [(textKey, Json.str s)]))).2) ccKey
        = some (Json.num (Int.ofNat s.length)) ∧
    (("é").data).length = 1 ∧ utf8Len (("é").data) = 2 :=
  ⟨rfl, by decide, by decide⟩

/-- C4 counterexample: for a POST `/analyze` request with JSON content type
whose body fails to parse, the handler returns 500 (the parse exception is
caught by the `except Exception` clause), not the claimed 400. -/
theorem analyze_unparsable_cex :
    analyzeHandler true none = (500, errObj internalMsg) ∧
    (analyzeHandler true none).1 ≠ 400 :=
  ⟨rfl, by decide⟩

/-- C4 (amended): for every POST `/analyze` request with JSON content type
whose body fails to parse as JSON, the handler catches the parse exception
and returns 500 with body `{"error": "Internal server error"}`; a response
is always produced, so the process does not crash, but the error surface is
the catch-all 500, not the 400 used for missing fields. -/
theorem analyze_unparsable_internal_error :
    analyzeHandler true none = (500, errObj internalMsg) := rfl

/-- C5: every POST `/analyze` request whose declared content type is not
`application/json` is answered with HTTP 400 and body
`{"error": "Content-Type must be application/json"}`, regardless of the
body content. -/
theorem analyze_content_type_rejected (body : Option Json) :
    analyzeHandler false body = (400, errObj ctErrMsg) := rfl

/-- C6: for every request whose body parses to a JSON object, if the object
lacks the key `text` the handler returns 400 with
`{"error": "Missing required field: text"}`; otherwise, if the value of
`text` is not a string, it returns 400 with
`{"error": "Field 'text' must be a string"}` — the missing-key check runs
first, and neither case reaches the 500 path. -/
theorem analyze_object_field_checks (fields : List (List Char × Json)) :
    (lookupLast fields textKey = none →
      analyzeHandler true (some (Json.obj fields)) = (400, errObj missingMsg)) ∧
    (∀ v, lookupLast fields textKey = some v → Json.isStr v = false →
      analyzeHandler true (some (Json.obj fields)) = (400, errObj typeMsg)) := by
  constructor
  · intro h
    simp [analyzeHandler, analyzeStep, pyContains, h]
  · intro v hv hs
    rcases v with _ | b | n | s | es | fs
    · simp [analyzeHandler, analyzeStep, pyContains, pyGetItem, hv]
    · simp [analyzeHandler, analyzeStep, pyContains, pyGetItem, hv]
    · simp [analyzeHandler, analyzeStep, pyContains, pyGetItem, hv]
    · simp [Json.isStr] at hs
    · simp [analyzeHandler, analyzeStep, pyContains, pyGetItem, hv]
    · simp [analyzeHandler, analyzeStep, pyContains, pyGetItem, hv]

/-- C6 witness: the empty object is answered with the missing-field error,
and `{"text": 123}` with the wrong-type error. -/
theorem analyze_object_field_checks_witness :
    analyzeHandler true (some (Json.obj [])) = (400, errObj missingMsg) ∧
    analyzeHandler true (some (Json.obj [(textKey, Json.num 123)]))
      = (400, errObj typeMsg) :=
  ⟨(analyze_object_field_checks []).1 rfl,
   (analyze_object_field_checks [(textKey, Json.num 123)]).2 (Json.num 123) rfl rfl⟩

/-- C7: every request to an unmatched path is answered with 404 and
`{"error": "Endpoint not found"}`, and every request to a matched path with
a method outside its allowed set with 405 and
`{"error": "Method not allowed"}`. -/
theorem dispatch_routing_errors (method path : String) (isJson : Bool)
    (body : Option Json) :
    (path ≠ ("/health") → path ≠ ("/analyze") →
      dispatch method path isJson body = (404, errObj notFoundMsg)) ∧
    (method ∉ ([("GET"), ("HEAD"), ("OPTIONS")] : List String) →
      dispatch method ("/health") isJson body = (405, errObj mnaMsg)) ∧
    (method ∉ ([("POST"), ("OPTIONS")] : List String) →
      dispatch method ("/analyze") isJson body = (405, errObj mnaMsg)) := by
  refine ⟨fun h1 h2 => ?_, fun h => ?_, fun h => ?_⟩
  · simp [dispatch, h1, h2]
  · simp at h
    simp [dispatch, h.1, h.2.1, h.2.2]
  · simp at h
    simp [dispatch, h.1, h.2]

/-- C7 witness: `GET /nope` is answered 404, `DELETE /health` and
`GET /analyze` are answered 405. -/
theorem dispatch_routing_errors_witness :
    dispatch ("GET") ("/nope") true none = (404, errObj notFoundMsg) ∧
    dispatch ("DELETE") ("/health") true none = (405, errObj mnaMsg) ∧
    dispatch ("GET") ("/analyze") true none = (405, errObj mnaMsg) :=
  ⟨(dispatch_routing_errors ("GET") ("/nope") true none).1
      (by decide) (by decide),
   (dispatch_routing_errors ("DELETE") ("/health") true none).2.1 (by decide),
   (dispatch_routing_errors ("GET") ("/analyze") true none).2.2 (by decide)⟩

/-- C8: `GET /health` is always answered with HTTP 200 and body
`{"status": "healthy"}`, regardless of the content type declared or the
body sent; no input reaches a failure path. -/
theorem health_check_ok (isJson : Bool) (body : Option Json) :
    dispatch ("GET") ("/health") isJson body = (200, healthyObj) := rfl

/-- C9: the analyze operation is deterministic and stateless — its response
does not depend on the accumulated logger state, so two executions of the
same request (also in sequence, the second starting from the log left by
the first) produce identical responses. -/
theorem analyze_stateless (isJson : Bool) (body : Option Json)
    (log1 log2 : List LogEntry) :
    (analyzeStep isJson body log1).1 = (analyzeStep isJson body log2).1 ∧
    (analyzeStep isJson body ((analyzeStep isJson body log1).2)).1
      = (analyzeStep isJson body log1).1 := by
  have key : ∀ l l' : List LogEntry,
      (analyzeStep isJson body l).1 = (analyzeStep isJson body l').1 := by
    intro l l'
    cases isJson with
    | false => rfl
    | true =>
      cases body with
      | none => rfl
      | some data =>
        simp only [analyzeStep]
        rcases hpc : pyContains data textKey with e | b
        · simp [hpc]
        · cases b with
          | false => simp [hpc]
          | true =>
            rcases hgi : pyGetItem data textKey with e2 | t
            · simp [hpc, hgi]
            · cases t <;> simp [hpc, hgi]
  exact ⟨key log1 log2, key _ log1⟩

/-- C10: for every string `s` accepted by the analyze operation, the
returned `word_count` is at most the returned `character_count`. -/
theorem analyze_word_le_char (s : List Char) :
    jGet ((analyzeHandler true (some (Json.obj [(textKey, Json.str s)]))).2) wcKey
        = some (Json.num (Int.ofNat (wordCount s))) ∧
    jGet ((analyzeHandler true (some (Json.obj [(textKey, Json.str s)]))).2) ccKey
        = some (Json.num (Int.ofNat s.length)) ∧
    wordCount s ≤ s.length := by
  refine ⟨rfl, rfl, ?_⟩
  rw [wordCount_eq_countStarts]
  exact countStarts_le s true

end App
